import Mathlib

/-!
# Verification of the recipe_service ingredient pipeline

Shallow embedding of `src/app/services/recipe_ai.py` (RW04/recipe_service).
The Python module resolves raw ingredient strings against a preloaded
ingredient/category table, falls back to an external classification service,
enforces three request gates (conflict, minimum count, core-category
coverage), and finally asks an external generation service for recipes,
parsing its reply into typed records.

Modelling conventions:
* Python strings are Lean `String`; `str.lower()` / `str.replace(" ", "")` /
  `str.upper()` are embedded per character (`Char.toLower` models the
  ASCII-latin lowering that the ingredient tokens use).
* The WordNet lemmatizer (`nltk`, an external library) is an abstract
  parameter `lem : String → String`: the code applies exactly one such pass.
* `pandas` rows of `ingredients_table.csv` are `DatasetRow`s; the dataset
  file itself is not part of the sources, so the table is a parameter.
  The load-time preprocessing (line 26-27 of recipe_ai.py) is
  `preprocessDataset`.
* The external services are parameters giving the outcome of each call:
  `LLMOutcome` for the classification call (transport failure / a reply
  that `json.loads` could or could not parse) and `GenOutcome` for the
  generation call.  A parsed JSON document is a `JsonVal`.
* Raised Python exceptions are `Except PyExn`; the `try/except` in
  `generate_recipe` re-raises, so an uncaught exception is a failed request.
* Every function that can contact an external service also returns the
  trace of external events (`Ev`) it performed, so that "the service was
  not invoked" is a provable statement.
-/

namespace RecipeService

/-- Python `str.lower()` restricted to basic latin (per-`Char` lowering). -/
def pyLower (s : String) : String := ⟨s.data.map Char.toLower⟩

/-- Python `str.upper()` restricted to basic latin (per-`Char` uppering). -/
def pyUpper (s : String) : String := ⟨s.data.map Char.toUpper⟩

/-- Python `str.replace(" ", "")`: drop every space character. -/
def removeSpaces (s : String) : String := ⟨s.data.filter (fun c => c ≠ ' ')⟩

/-- `normalize_ingredient` (recipe_ai.py line 36-46):
`lemmatizer.lemmatize(ingredient.lower().replace(" ", ""))`.
`lem` is the (abstract, fixed) WordNet lemmatization pass. -/
def normalize_ingredient (lem : String → String) (ingredient : String) : String :=
  lem (removeSpaces (pyLower ingredient))

/-- A value produced by Python `json.loads` (numbers modelled as integers;
object fields in document order, assumed key-distinct). -/
inductive JsonVal where
  | null : JsonVal
  | bool (b : Bool) : JsonVal
  | num (n : Int) : JsonVal
  | str (s : String) : JsonVal
  | arr (xs : List JsonVal) : JsonVal
  | obj (fields : List (String × JsonVal)) : JsonVal

/-- Python truthiness of a `json.loads` result. -/
def jsonTruthy : JsonVal → Bool
  | .null => false
  | .bool b => b
  | .num n => n ≠ 0
  | .str s => s ≠ ""
  | .arr xs => ¬ xs.isEmpty
  | .obj fs => ¬ fs.isEmpty

/-- A Python exception that escapes the code under analysis. -/
inductive PyExn where
  | keyError (key : String) : PyExn
  | typeError : PyExn
  | attributeError : PyExn
  | validationError (field : String) : PyExn

/-- Python subscript `j[k]` on a `json.loads` result: field lookup on a
dict, `KeyError` on a missing key, `TypeError` on non-dict values. -/
def jsonGet (j : JsonVal) (k : String) : Except PyExn JsonVal :=
  match j with
  | .obj fields =>
    match fields.find? (fun f => f.1 = k) with
    | some f => .ok f.2
    | none => .error (.keyError k)
  | _ => .error .typeError

/-- Python `v.upper()` on a `json.loads` value: only strings have the
attribute, anything else raises `AttributeError`. -/
def jsonUpper (j : JsonVal) : Except PyExn String :=
  match j with
  | .str s => .ok (pyUpper s)
  | _ => .error .attributeError

/-- Python `v == "None"` for a `json.loads` value. -/
def isNoneStr : JsonVal → Bool
  | .str s => s = "None"
  | _ => false

/-- One row of `ingredients_table.csv` as held by the `pandas` frame:
an ingredient cell and a category cell. -/
structure DatasetRow where
  ingredient : String
  category : String
deriving DecidableEq

/-- The preloaded `ingredient_df`. -/
abbrev Dataset := List DatasetRow

/-- Load-time preprocessing (recipe_ai.py line 26-27): both columns are
lowercased and space-stripped. -/
def preprocessDataset (df : Dataset) : Dataset :=
  df.map (fun r => ⟨removeSpaces (pyLower r.ingredient), removeSpaces (pyLower r.category)⟩)

/-- `CORE_CATEGORIES` (recipe_ai.py line 30). -/
def CORE_CATEGORIES : List String := ["protein", "vegetables", "fruits", "carbs"]

/-- Outcome of one call of the external classification service for one
ingredient, as observed inside the `try` of `call_llm_for_ingredient`:
either an exception (transport/timeout error, or a reply text that
`json.loads` rejects) or a reply that parsed to a `JsonVal`. -/
inductive LLMOutcome where
  | err : LLMOutcome
  | reply (j : JsonVal) : LLMOutcome

/-- An external interaction performed by the pipeline. -/
inductive Ev where
  | lookup (ingredient : String) : Ev
  | classify (ingredient : String) : Ev
  | generate (prompt : String) : Ev
deriving DecidableEq

/-- `call_llm_for_ingredient` (recipe_ai.py line 49-80): the whole body is
inside `try/except`, so a transport failure or an unparseable reply yields
`None`; a parseable reply yields its parsed JSON document. -/
def call_llm_for_ingredient (llm : String → LLMOutcome) (ingredient : String) :
    Option JsonVal × List Ev :=
  (match llm ingredient with
   | .err => none
   | .reply j => some j,
   [.classify ingredient])

/-- `get_ingredient_category` (recipe_ai.py line 111-122): filter the frame
on the Ingredient column and take the first matching row's Category cell,
`None` when no row matches. -/
def get_ingredient_category (df : Dataset) (ingredient : String) : Option String :=
  (df.find? (fun r => r.ingredient = ingredient)).map (fun r => r.category)

/-- Python truthiness of `get_ingredient_category`'s result
(`if category:` at line 96): `None` and the empty string are falsy. -/
def optStrTruthy : Option String → Bool
  | some s => s ≠ ""
  | none => false

/-- The record `{"ingredient": ..., "category": ...}` returned by
`is_valid_ingredient` for a valid ingredient.  The category is `none` for
Python `None` and otherwise carries the attached value verbatim (a dataset
category cell is a string; the service-declared category may be any JSON
value, the code does not inspect it further). -/
structure ResolvedIngredient where
  ingredient : String
  category : Option JsonVal

/-- The external-service fallback inside `is_valid_ingredient`
(recipe_ai.py line 100-108): `llm_result and llm_result["valid"].upper()
== "YES"` with Python short-circuit; on "YES" the returned category is
`llm_result["category"]` unless that equals `"None"`.  The subscripts and
`.upper()` happen outside any `try`, so their exceptions escape. -/
def llmValidate (llm : String → LLMOutcome) (n : String) :
    Except PyExn (Option ResolvedIngredient) × List Ev :=
  match call_llm_for_ingredient llm n with
  | (none, t) => (.ok none, t)
  | (some j, t) =>
    if jsonTruthy j then
      match jsonGet j "valid" with
      | .error e => (.error e, t)
      | .ok v =>
        match jsonUpper v with
        | .error e => (.error e, t)
        | .ok u =>
          if u = "YES" then
            match jsonGet j "category" with
            | .error e => (.error e, t)
            | .ok c => (.ok (some ⟨n, if isNoneStr c then none else some c⟩), t)
          else (.ok none, t)
    else (.ok none, t)

/-- `is_valid_ingredient` (recipe_ai.py line 83-108): normalize, consult the
dataset, and only on a falsy dataset category fall back to the external
classification service. -/
def is_valid_ingredient (lem : String → String) (df : Dataset)
    (llm : String → LLMOutcome) (ingredient : String) :
    Except PyExn (Option ResolvedIngredient) × List Ev :=
  let n := normalize_ingredient lem ingredient
  let category := get_ingredient_category df n
  if optStrTruthy category then
    (.ok (some ⟨n, some (.str (category.getD ""))⟩), [.lookup n])
  else
    let r := llmValidate llm n
    (r.1, .lookup n :: r.2)

/-- The request payload consumed by `generate_recipe` (recipe_schema.py,
`RecipeRequest` with its defaulted optional lists already applied). -/
structure RecipeRequest where
  user_id : String
  available_ingredients : List String
  liked_ingredients : List String
  excluded_ingredients : List String

/-- `Ingredient` (recipe_schema.py): one prompt-produced recipe ingredient. -/
structure Ingredient where
  ingredient : String
  quantity : String
deriving DecidableEq

/-- `DebugInfo` (recipe_schema.py), restricted to the three fields
`generate_recipe` actually populates. -/
structure DebugInfo where
  matched_with_database : List String
  matched_via_llm : List String
  raw_llm_response : String
deriving DecidableEq

/-- `RecipeResponseWithDebug` (recipe_schema.py). -/
structure RecipeResponseWithDebug where
  title : String
  ingredients : List Ingredient
  instructions : List String
  estimated_cooking_time : String
  difficulty_level : String
  debug_info : DebugInfo
deriving DecidableEq

/-- A failed `generate_recipe` request, by the `raise` that caused it. -/
inductive RecipeError where
  | conflict (names : List String) : RecipeError
  | notEnough : RecipeError
  | noCore : RecipeError
  | serviceErr : RecipeError
  | parseErr : RecipeError
  | exn (e : PyExn) : RecipeError

/-- The message carried by each `raise`d error (recipe_ai.py lines 154,
186, 190).  The offending conflict names are joined as in the source; the
source iterates a Python set, whose order is unspecified. -/
def errorMessage : RecipeError → String
  | .conflict names =>
    "Conflicting preferences detected. These ingredients cannot be both liked and excluded: "
      ++ String.intercalate ", " names
  | .notEnough => "Not enough valid ingredients. Provide at least 3 food ingredients."
  | .noCore => "At least one ingredient should be a vegetable, carb, protein, or fruit."
  | _ => ""

/-- Mutable state of the resolution loop (recipe_ai.py line 158-178):
`valid_ingredients`, `matched_with_database`, `matched_via_llm` are Python
lists (appended in input order, never de-duplicated);
`ingredient_categories` is a Python set, modelled as the list of added
values (only membership is ever consulted). -/
structure LoopAcc where
  valid : List String
  matchedDb : List String
  matchedLlm : List String
  cats : List JsonVal

/-- The empty loop state. -/
def initAcc : LoopAcc := ⟨[], [], [], []⟩

/-- `result["ingredient"] in ingredient_df["Ingredient"].values`
(recipe_ai.py line 173). -/
def dfHasIngredient (df : Dataset) (x : String) : Bool :=
  df.any (fun r => r.ingredient = x)

/-- `if category: ingredient_categories.add(category)` (recipe_ai.py
line 170-171): only a truthy category is added, and Python `set.add`
raises `TypeError` on an unhashable value — a JSON list or dict, which a
service reply can declare as its category.  A falsy value (including the
empty list/dict) is never added and never raises. -/
def catsAfterAdd (cats : List JsonVal) : Option JsonVal → Except PyExn (List JsonVal)
  | some j =>
    if jsonTruthy j then
      match j with
      | .arr _ => .error .typeError
      | .obj _ => .error .typeError
      | _ => .ok (cats ++ [j])
    else .ok cats
  | none => .ok cats

/-- One iteration's state update for a valid resolution (recipe_ai.py
line 166-176): append to the valid list, add a truthy category to the set
(raising `TypeError` for an unhashable list/dict category, which aborts
the request), and record provenance by re-checking dataset membership. -/
def updateAcc (df : Dataset) (acc : LoopAcc) (r : ResolvedIngredient) :
    Except PyExn LoopAcc :=
  match catsAfterAdd acc.cats r.category with
  | .error e => .error e
  | .ok cs =>
    .ok { valid := acc.valid ++ [r.ingredient]
          matchedDb :=
            if dfHasIngredient df r.ingredient then acc.matchedDb ++ [r.ingredient]
            else acc.matchedDb
          matchedLlm :=
            if dfHasIngredient df r.ingredient then acc.matchedLlm
            else acc.matchedLlm ++ [r.ingredient]
          cats := cs }

/-- The resolution loop `for ing in request.available_ingredients`
(recipe_ai.py line 163-178).  An invalid ingredient is skipped with a
logged warning; an uncaught exception — from `is_valid_ingredient`, or
the `TypeError` of adding an unhashable category to the set — aborts the
loop (and, upstream, the request). -/
def resolveLoop (lem : String → String) (df : Dataset) (llm : String → LLMOutcome) :
    List String → LoopAcc → Except PyExn LoopAcc × List Ev
  | [], acc => (.ok acc, [])
  | ing :: rest, acc =>
    match is_valid_ingredient lem df llm ing with
    | (.error e, t) => (.error e, t)
    | (.ok none, t) =>
      let r := resolveLoop lem df llm rest acc
      (r.1, t ++ r.2)
    | (.ok (some res), t) =>
      match updateAcc df acc res with
      | .error e => (.error e, t)
      | .ok acc2 =>
        let r := resolveLoop lem df llm rest acc2
        (r.1, t ++ r.2)

/-- `ingredient_categories.intersection(CORE_CATEGORIES)` is non-empty
(recipe_ai.py line 188): a member of the category set equals a core label
only when it is that string. -/
def coreHit (cats : List JsonVal) : Bool :=
  cats.any (fun j =>
    match j with
    | .str s => CORE_CATEGORIES.contains s
    | _ => false)

/-- The generation prompt (recipe_ai.py line 192-201). -/
def buildPrompt (valid liked excl : List String) : String :=
  "Generate up to 5 recipes using these ingredients: " ++ String.intercalate ", " valid
    ++ ". Give preference to: " ++ String.intercalate ", " liked
    ++ ". Exclude: " ++ String.intercalate ", " excl
    ++ ". Ensure the recipes make culinary sense. "
    ++ "Each recipe must be in JSON format with the following keys: "
    ++ "'title', 'ingredients' (list of objects with 'ingredient' and 'quantity'), "
    ++ "'instructions' (list), 'estimated_cooking_time', 'difficulty_level'. "
    ++ "Return only a valid JSON list, no extra text."

/-- Outcome of the single generation-service call together with the
outcome of `json.loads` on its (marker-stripped) reply text
(recipe_ai.py line 203-214): a transport failure, a reply whose text does
not parse as JSON, or a reply parsed to a document. -/
inductive GenOutcome where
  | err : GenOutcome
  | malformed (text : String) : GenOutcome
  | parsed (text : String) (j : JsonVal) : GenOutcome

/-- A Python list comprehension over fallible element processing: the
first exception aborts the whole comprehension. -/
def exceptMapM (f : JsonVal → Except PyExn RecipeResponseWithDebug) :
    List JsonVal → Except PyExn (List RecipeResponseWithDebug)
  | [] => .ok []
  | x :: xs =>
    match f x with
    | .error e => .error e
    | .ok y =>
      match exceptMapM f xs with
      | .error e => .error e
      | .ok ys => .ok (y :: ys)

/-- Extract a required string field for a pydantic model; a missing or
non-string value is a validation failure. -/
def getStrField (fields : List (String × JsonVal)) (k : String) : Except PyExn String :=
  match fields.find? (fun f => f.1 = k) with
  | some (_, .str s) => .ok s
  | _ => .error (.validationError k)

/-- Validation of one entry of the `ingredients` field. -/
def parseIngredientEntry : JsonVal → Except PyExn Ingredient
  | .obj fs =>
    match getStrField fs "ingredient" with
    | .error e => .error e
    | .ok i =>
      match getStrField fs "quantity" with
      | .error e => .error e
      | .ok q => .ok ⟨i, q⟩
  | _ => .error (.validationError "ingredient")

/-- A Python list comprehension validating `ingredients` entries. -/
def mapIngredientEntries : List JsonVal → Except PyExn (List Ingredient)
  | [] => .ok []
  | x :: xs =>
    match parseIngredientEntry x with
    | .error e => .error e
    | .ok y =>
      match mapIngredientEntries xs with
      | .error e => .error e
      | .ok ys => .ok (y :: ys)

/-- A Python list comprehension validating `instructions` entries. -/
def mapInstructionEntries : List JsonVal → Except PyExn (List String)
  | [] => .ok []
  | x :: xs =>
    match x with
    | .str s =>
      (match mapInstructionEntries xs with
       | .error e => .error e
       | .ok ys => .ok (s :: ys))
    | _ => .error (.validationError "instructions")

/-- `RecipeResponseWithDebug(**recipe, debug_info=...)` (recipe_ai.py
line 217-222): `**` on a non-dict raises `TypeError`; pydantic then
requires every declared field with its declared shape and ignores extras. -/
def parseRecipe (dbg : DebugInfo) : JsonVal → Except PyExn RecipeResponseWithDebug
  | .obj fs => do
    let t ← getStrField fs "title"
    let ings ←
      match fs.find? (fun f => f.1 = "ingredients") with
      | some (_, .arr xs) => mapIngredientEntries xs
      | _ => .error (.validationError "ingredients")
    let instrs ←
      match fs.find? (fun f => f.1 = "instructions") with
      | some (_, .arr xs) => mapInstructionEntries xs
      | _ => .error (.validationError "instructions")
    let ect ← getStrField fs "estimated_cooking_time"
    let dl ← getStrField fs "difficulty_level"
    .ok ⟨t, ings, instrs, ect, dl, dbg⟩
  | _ => .error .typeError

/-- The list comprehension over `recipes_data` (recipe_ai.py line 216-224).
Python iterates whatever `json.loads` produced: a list yields its entries;
an empty dict or empty string yields nothing (so the comprehension
succeeds with zero recipes); any other non-list document raises
(`TypeError` on `**recipe` for the first yielded key or character, or on
the non-iterable itself). -/
def parseRecipes (dbg : DebugInfo) : JsonVal → Except PyExn (List RecipeResponseWithDebug)
  | .arr xs => exceptMapM (parseRecipe dbg) xs
  | .obj [] => .ok []
  | .str "" => .ok []
  | _ => .error .typeError

/-- `request.available_ingredients` after the in-place normalization of
recipe_ai.py line 143. -/
def normalizedAvailable (lem : String → String) (req : RecipeRequest) : List String :=
  req.available_ingredients.map (normalize_ingredient lem)

/-- `request.liked_ingredients` after the in-place normalization of
recipe_ai.py line 144. -/
def normalizedLiked (lem : String → String) (req : RecipeRequest) : List String :=
  req.liked_ingredients.map (normalize_ingredient lem)

/-- `request.excluded_ingredients` after the in-place normalization of
recipe_ai.py line 145. -/
def normalizedExcluded (lem : String → String) (req : RecipeRequest) : List String :=
  req.excluded_ingredients.map (normalize_ingredient lem)

/-- `conflicting_ingredients = set(liked) & set(excluded)` (recipe_ai.py
line 152), as the de-duplicated list of liked normalized ingredients also
occurring among the excluded ones (the Python set's iteration order is
unspecified; only membership and emptiness are consulted). -/
def conflictList (lem : String → String) (req : RecipeRequest) : List String :=
  ((normalizedLiked lem req).filter
    (fun x => decide (x ∈ normalizedExcluded lem req))).dedup

/-- `generate_recipe` (recipe_ai.py line 125-227), starting after the
preference-store save (the transport and persistence collaborators are out
of the pipeline's scope): normalize all three lists, enforce the conflict
gate, run the resolution loop, enforce the count and coverage gates, then
perform the single generation call and parse its reply.  The `except`
clause re-raises, so any uncaught exception fails the request. -/
def generate_recipe (lem : String → String) (df : Dataset)
    (llm : String → LLMOutcome) (gen : GenOutcome) (req : RecipeRequest) :
    Except RecipeError (List RecipeResponseWithDebug) × List Ev :=
  if (conflictList lem req).isEmpty then
    match resolveLoop lem df llm (normalizedAvailable lem req) initAcc with
    | (.error e, t) => (.error (.exn e), t)
    | (.ok acc, t) =>
      if acc.valid.length < 3 then (.error .notEnough, t)
      else if coreHit acc.cats then
        match gen with
        | .err =>
          (.error .serviceErr,
           t ++ [.generate (buildPrompt acc.valid (normalizedLiked lem req) (normalizedExcluded lem req))])
        | .malformed _ =>
          (.error .parseErr,
           t ++ [.generate (buildPrompt acc.valid (normalizedLiked lem req) (normalizedExcluded lem req))])
        | .parsed text j =>
          match parseRecipes ⟨acc.matchedDb, acc.matchedLlm, text⟩ j with
          | .error e =>
            (.error (.exn e),
             t ++ [.generate (buildPrompt acc.valid (normalizedLiked lem req) (normalizedExcluded lem req))])
          | .ok rs =>
            (.ok rs,
             t ++ [.generate (buildPrompt acc.valid (normalizedLiked lem req) (normalizedExcluded lem req))])
      else (.error .noCore, t)
  else (.error (.conflict (conflictList lem req)), [])

/-! ## Concrete environments used by witnesses and counterexamples -/

/-- The identity lemmatization pass (a lemmatizer leaves base forms
unchanged), used for concrete scenarios. -/
def lemId : String → String := id

/-- A small preprocessed dataset with one ingredient per core category. -/
def df0 : Dataset := [⟨"tomato", "vegetables"⟩, ⟨"egg", "protein"⟩, ⟨"rice", "carbs"⟩]

/-- A classification service whose every call fails before parsing
(transport error or unparseable reply text). -/
def llmE : String → LLMOutcome := fun _ => .err

/-- A classification service whose reply parses as JSON but lacks the
`valid` key. -/
def llmMissingValid : String → LLMOutcome :=
  fun _ => .reply (.obj [("category", .str "protein")])

/-- A classification service declaring every ingredient a valid food of
category `dairy` (a label outside the core enumeration). -/
def llmDairy : String → LLMOutcome :=
  fun _ => .reply (.obj [("valid", .str "yes"), ("category", .str "dairy")])

/-- A classification service declaring every ingredient valid with no
category. -/
def llmYesNone : String → LLMOutcome :=
  fun _ => .reply (.obj [("valid", .str "YES"), ("category", .str "None")])

/-- The dataset row `Water, " "` after load-time preprocessing: present in
the Ingredient column, with an empty (falsy) category cell. -/
def dfWater : Dataset := preprocessDataset [⟨"Water", " "⟩]

/-! ## Helper lemmas -/

/-- Basic-latin lowering maps no character to the space character except
the space itself. -/
theorem toLower_eq_space_iff (c : Char) : Char.toLower c = ' ' ↔ c = ' ' := by
  constructor
  · intro h
    simp only [Char.toLower] at h
    split at h
    · exfalso
      rename_i hcond
      have hval : (Char.toNat c + 32).isValidChar := Or.inl (by omega)
      rw [Char.ofNat, dif_pos hval] at h
      have h2 := congrArg Char.toNat h
      simp only [Char.ofNatAux, Char.toNat, UInt32.toNat, BitVec.toNat_ofNatLt] at h2
      have hsp : (' ' : Char).val.toBitVec.toNat = 32 := rfl
      have hcn : Char.toNat c = c.val.toBitVec.toNat := rfl
      rw [hsp, ← hcn] at h2
      omega
    · exact h
  · intro h
    subst h
    decide

/-- The space-removal and lowering of `normalize_ingredient`, pushed to
character lists. -/
theorem removeSpaces_pyLower (s : String) :
    removeSpaces (pyLower s) = ⟨(s.data.filter (fun c => c ≠ ' ')).map Char.toLower⟩ := by
  have hp : (fun c => decide (c ≠ ' ')) ∘ Char.toLower = fun c => decide (c ≠ ' ') := by
    funext c
    simp [Function.comp, toLower_eq_space_iff]
  simp only [removeSpaces, pyLower]
  rw [List.filter_map, hp]

/-- C8 counterexample: `toma\tto` and `tomato` differ only by whitespace
(a tab), yet normalization does not identify them — `replace(" ", "")`
strips only the space character, so the strings reaching the (single)
lemmatization pass still differ, and under a lemmatization pass that
leaves both of these non-inflected tokens unchanged (as a lemmatizer
does for forms it has no base for) the canonical forms differ. -/
theorem tab_whitespace_not_stripped_by_normalization :
    (("toma\tto".data.filter (fun c => !c.isWhitespace)).map Char.toLower =
      ("tomato".data.filter (fun c => !c.isWhitespace)).map Char.toLower) ∧
    removeSpaces (pyLower "toma\tto") ≠ removeSpaces (pyLower "tomato") ∧
    normalize_ingredient lemId "toma\tto" ≠ normalize_ingredient lemId "tomato" :=
  ⟨by decide, by decide, by decide⟩

/-- C8 (amended).  For every pair of raw ingredient strings whose
non-space characters, case-folded, agree — the space character being the
only whitespace normalization strips, see the counterexample for other
whitespace — `normalize_ingredient` produces the same canonical
ingredient, for every (fixed, deterministic) lemmatization pass; the
embedding is a total function, so normalization is total and
deterministic on all input strings. -/
theorem normalize_ingredient_case_space_invariant (lem : String → String) (a b : String)
    (h : (a.data.filter (fun c => c ≠ ' ')).map Char.toLower =
         (b.data.filter (fun c => c ≠ ' ')).map Char.toLower) :
    normalize_ingredient lem a = normalize_ingredient lem b := by
  unfold normalize_ingredient
  rw [removeSpaces_pyLower, removeSpaces_pyLower, h]

/-- Witness for C8 at concrete inputs differing by case and spaces. -/
theorem normalize_ingredient_case_space_invariant_witness :
    (("Toma to".data.filter (fun c => c ≠ ' ')).map Char.toLower =
      ("  tOMATO".data.filter (fun c => c ≠ ' ')).map Char.toLower) ∧
    normalize_ingredient lemId "Toma to" = normalize_ingredient lemId "  tOMATO" :=
  ⟨by decide, normalize_ingredient_case_space_invariant lemId "Toma to" "  tOMATO" (by decide)⟩

/-- Unfolding of one resolution-loop step, on the result component. -/
theorem resolveLoop_fst_cons (lem : String → String) (df : Dataset)
    (llm : String → LLMOutcome) (ing : String) (rest : List String) (acc : LoopAcc) :
    (resolveLoop lem df llm (ing :: rest) acc).1 =
      match (is_valid_ingredient lem df llm ing).1 with
      | .error e => .error e
      | .ok none => (resolveLoop lem df llm rest acc).1
      | .ok (some res) =>
        match updateAcc df acc res with
        | .error e => .error e
        | .ok acc2 => (resolveLoop lem df llm rest acc2).1 := by
  rcases hiv : is_valid_ingredient lem df llm ing with ⟨r, t⟩
  cases r with
  | error e => simp [resolveLoop, hiv]
  | ok o =>
    cases o with
    | none => simp [resolveLoop, hiv]
    | some res =>
      cases hup : updateAcc df acc res with
      | error e => simp [resolveLoop, hiv, hup]
      | ok acc2 => simp [resolveLoop, hiv, hup]

/-- The list fields of a loop state produced by a successful update. -/
theorem updateAcc_ok_fields (df : Dataset) (acc : LoopAcc) (r : ResolvedIngredient)
    (acc2 : LoopAcc) (h : updateAcc df acc r = .ok acc2) :
    acc2.valid = acc.valid ++ [r.ingredient] ∧
    acc2.matchedDb =
      (if dfHasIngredient df r.ingredient then acc.matchedDb ++ [r.ingredient]
       else acc.matchedDb) ∧
    acc2.matchedLlm =
      (if dfHasIngredient df r.ingredient then acc.matchedLlm
       else acc.matchedLlm ++ [r.ingredient]) := by
  unfold updateAcc at h
  cases hca : catsAfterAdd acc.cats r.category with
  | error e =>
    rw [hca] at h
    cases h
  | ok cs =>
    rw [hca] at h
    cases h
    exact ⟨rfl, rfl, rfl⟩

/-- C1 counterexample: a classification reply that parses as JSON but not
in the expected structured form (here, lacking the `valid` key) is not
absorbed: the subscript raises `KeyError` outside any handler and the
whole `generate_recipe` request aborts, although the dataset misses the
ingredient and every gate was passable. -/
theorem classification_shape_failure_aborts_request :
    (generate_recipe lemId df0 llmMissingValid .err ⟨"u", ["brie"], [], []⟩).1 =
      .error (.exn (.keyError "valid")) := rfl

/-- C1 (amended).  A classification failure arising inside the external
call — a transport/timeout error or a reply text that JSON parsing
rejects — is absorbed for an ingredient the dataset does not decide: the
ingredient is deemed not valid (`None`), nothing is raised, and the
resolution loop continues with the remaining ingredients exactly as if
the ingredient had been skipped. -/
theorem classification_call_failure_excluded_not_raised
    (lem : String → String) (df : Dataset) (llm : String → LLMOutcome)
    (ing : String) (rest : List String) (acc : LoopAcc)
    (hmiss : optStrTruthy (get_ingredient_category df (normalize_ingredient lem ing)) = false)
    (hfail : llm (normalize_ingredient lem ing) = .err) :
    (is_valid_ingredient lem df llm ing).1 = .ok none ∧
    (resolveLoop lem df llm (ing :: rest) acc).1 = (resolveLoop lem df llm rest acc).1 := by
  have hiv : (is_valid_ingredient lem df llm ing).1 = .ok none := by
    simp [is_valid_ingredient, hmiss, llmValidate, call_llm_for_ingredient, hfail]
  refine ⟨hiv, ?_⟩
  rw [resolveLoop_fst_cons, hiv]

/-- Witness for C1 (amended): a transport failure on `brie` excludes only
`brie` and the loop result equals that of the remaining input. -/
theorem classification_call_failure_excluded_not_raised_witness :
    (optStrTruthy (get_ingredient_category [] (normalize_ingredient lemId "brie")) = false ∧
      llmE (normalize_ingredient lemId "brie") = .err) ∧
    ((is_valid_ingredient lemId [] llmE "brie").1 = .ok none ∧
      (resolveLoop lemId [] llmE ["brie", "egg"] initAcc).1 =
        (resolveLoop lemId [] llmE ["egg"] initAcc).1) :=
  ⟨⟨rfl, rfl⟩,
   classification_call_failure_excluded_not_raised lemId [] llmE "brie" ["egg"] initAcc rfl rfl⟩

/-- C2.  Whenever the normalized liked and excluded lists share a
canonical ingredient, `generate_recipe` fails with the conflict error
carrying exactly the shared canonical ingredients, and its external trace
is empty: no dataset lookup, no classification call and no generation
call happened before the failure. -/
theorem conflict_gate_rejects_before_any_resolution
    (lem : String → String) (df : Dataset) (llm : String → LLMOutcome)
    (gen : GenOutcome) (req : RecipeRequest) (x : String)
    (hl : x ∈ normalizedLiked lem req) (he : x ∈ normalizedExcluded lem req) :
    generate_recipe lem df llm gen req = (.error (.conflict (conflictList lem req)), []) ∧
    (∀ y, y ∈ conflictList lem req ↔
      (y ∈ normalizedLiked lem req ∧ y ∈ normalizedExcluded lem req)) ∧
    conflictList lem req ≠ [] := by
  have hmem : ∀ y, y ∈ conflictList lem req ↔
      (y ∈ normalizedLiked lem req ∧ y ∈ normalizedExcluded lem req) := by
    intro y
    simp [conflictList, List.mem_filter]
  have hne : conflictList lem req ≠ [] := by
    intro h0
    have hx := (hmem x).mpr ⟨hl, he⟩
    rw [h0] at hx
    exact List.not_mem_nil x hx
  have hcond : (conflictList lem req).isEmpty = false := by
    simp [hne]
  refine ⟨?_, hmem, hne⟩
  simp [generate_recipe, hcond]

/-- A request whose liked and excluded lists share the canonical
ingredient `tomato` under different spellings. -/
def reqConflict : RecipeRequest := ⟨"u", ["Tomato"], ["Tomato"], ["toma to"]⟩

/-- Witness for C2 at a concrete conflicting request. -/
theorem conflict_gate_rejects_before_any_resolution_witness :
    ("tomato" ∈ normalizedLiked lemId reqConflict ∧
      "tomato" ∈ normalizedExcluded lemId reqConflict) ∧
    generate_recipe lemId df0 llmE .err reqConflict =
      (.error (.conflict (conflictList lemId reqConflict)), []) :=
  ⟨⟨by decide, by decide⟩,
   (conflict_gate_rejects_before_any_resolution lemId df0 llmE .err reqConflict "tomato"
     (by decide) (by decide)).1⟩

/-- C7 counterexample: the canonical ingredient `water` is present in the
dataset table, but its category cell is empty (falsy), so resolution does
not return the dataset row's category and does invoke the external
classification service (a `classify` event is traced). -/
theorem dataset_row_with_empty_category_calls_llm :
    dfHasIngredient dfWater "water" = true ∧
    is_valid_ingredient lemId dfWater llmE "water" =
      (.ok none, [.lookup "water", .classify "water"]) :=
  ⟨rfl, rfl⟩

/-- C7 (amended).  For every canonical ingredient whose dataset lookup
yields a non-empty category, resolution returns exactly the dataset's
category with only a lookup in its trace — the external classification
service is not invoked — and the resolution is deterministic: it does not
depend on the external service at all, so resolving twice against an
unchanged dataset yields the same record. -/
theorem dataset_truthy_hit_skips_llm_and_deterministic
    (lem : String → String) (df : Dataset) (llm : String → LLMOutcome)
    (ing : String) (c : String)
    (h : get_ingredient_category df (normalize_ingredient lem ing) = some c)
    (hc : c ≠ "") :
    is_valid_ingredient lem df llm ing =
      (.ok (some ⟨normalize_ingredient lem ing, some (.str c)⟩),
       [.lookup (normalize_ingredient lem ing)]) ∧
    (∀ llm2 : String → LLMOutcome,
      is_valid_ingredient lem df llm2 ing = is_valid_ingredient lem df llm ing) := by
  have key : ∀ llm3 : String → LLMOutcome,
      is_valid_ingredient lem df llm3 ing =
        (.ok (some ⟨normalize_ingredient lem ing, some (.str c)⟩),
         [.lookup (normalize_ingredient lem ing)]) := by
    intro llm3
    simp [is_valid_ingredient, h, optStrTruthy, hc]
  exact ⟨key llm, fun llm2 => (key llm2).trans (key llm).symm⟩

/-- Witness for C7 (amended): `Tomato` hits the dataset row
`tomato, vegetables` and resolves without a classify event. -/
theorem dataset_truthy_hit_skips_llm_and_deterministic_witness :
    (get_ingredient_category df0 (normalize_ingredient lemId "Tomato") = some "vegetables" ∧
      "vegetables" ≠ "") ∧
    is_valid_ingredient lemId df0 llmE "Tomato" =
      (.ok (some ⟨"tomato", some (.str "vegetables")⟩), [.lookup "tomato"]) :=
  ⟨⟨rfl, by decide⟩,
   (dataset_truthy_hit_skips_llm_and_deterministic lemId df0 llmE "Tomato" "vegetables"
     rfl (by decide)).1⟩

/-- Evaluation of `generate_recipe`'s result once the conflict gate has
passed and the resolution loop has finished without an exception. -/
theorem generate_recipe_fst_of_resolved
    (lem : String → String) (df : Dataset) (llm : String → LLMOutcome)
    (gen : GenOutcome) (req : RecipeRequest) (acc : LoopAcc)
    (hconf : conflictList lem req = [])
    (hres : (resolveLoop lem df llm (normalizedAvailable lem req) initAcc).1 = .ok acc) :
    (generate_recipe lem df llm gen req).1 =
      if acc.valid.length < 3 then .error .notEnough
      else if coreHit acc.cats then
        match gen with
        | .err => .error .serviceErr
        | .malformed _ => .error .parseErr
        | .parsed text j =>
          match parseRecipes ⟨acc.matchedDb, acc.matchedLlm, text⟩ j with
          | .error e => .error (.exn e)
          | .ok rs => .ok rs
      else .error .noCore := by
  have hcond : (conflictList lem req).isEmpty = true := by simp [hconf]
  rcases hrl : resolveLoop lem df llm (normalizedAvailable lem req) initAcc with ⟨r, t⟩
  rw [hrl] at hres
  simp only at hres
  subst hres
  by_cases h3 : acc.valid.length < 3
  · simp [generate_recipe, hcond, hrl, h3]
  · by_cases hcov : coreHit acc.cats
    · cases gen with
      | err => simp [generate_recipe, hcond, hrl, h3, hcov]
      | malformed text => simp [generate_recipe, hcond, hrl, h3, hcov]
      | parsed text j =>
        cases hp : parseRecipes ⟨acc.matchedDb, acc.matchedLlm, text⟩ j with
        | error e => simp [generate_recipe, hcond, hrl, h3, hcov, hp]
        | ok rs => simp [generate_recipe, hcond, hrl, h3, hcov, hp]
    · simp [generate_recipe, hcond, hrl, h3, hcov]

/-- A classification service declaring every unknown ingredient a valid
food whose category is a (truthy, unhashable) JSON list. -/
def llmListCat : String → LLMOutcome :=
  fun _ => .reply (.obj [("valid", .str "YES"), ("category", .arr [.str "x"])])

/-- C3 counterexample: a request with a single available ingredient —
fewer than 3 resolve as valid — whose classification reply declares a
JSON-list category.  The ingredient resolves as valid, but `set.add`
raises `TypeError` on the unhashable category, so the request aborts
with that exception instead of rejecting with the minimum-stating
message. -/
theorem unhashable_category_aborts_before_count_gate :
    (is_valid_ingredient lemId [] llmListCat "thing").1 =
      .ok (some ⟨"thing", some (.arr [.str "x"])⟩) ∧
    (generate_recipe lemId [] llmListCat .err ⟨"u", ["thing"], [], []⟩).1 =
      .error (.exn .typeError) :=
  ⟨rfl, rfl⟩

/-- C3 (amended).  Once the conflict gate passes and the resolution loop
completes without an uncaught exception (in particular no resolved
ingredient carried a truthy unhashable category, which would abort the
request with `TypeError` — see the counterexample), the request is
rejected with the fixed minimum-stating message whenever fewer than 3
ingredients resolved as valid (unresolved ones were never appended to
the valid list, so they do not count), and the minimum-count gate
passes — its error cannot be the result — whenever at least 3 resolved. -/
theorem minimum_count_gate
    (lem : String → String) (df : Dataset) (llm : String → LLMOutcome)
    (gen : GenOutcome) (req : RecipeRequest) (acc : LoopAcc)
    (hconf : conflictList lem req = [])
    (hres : (resolveLoop lem df llm (normalizedAvailable lem req) initAcc).1 = .ok acc) :
    (acc.valid.length < 3 → (generate_recipe lem df llm gen req).1 = .error .notEnough) ∧
    (3 ≤ acc.valid.length → (generate_recipe lem df llm gen req).1 ≠ .error .notEnough) ∧
    errorMessage .notEnough =
      "Not enough valid ingredients. Provide at least 3 food ingredients." := by
  have heval := generate_recipe_fst_of_resolved lem df llm gen req acc hconf hres
  refine ⟨?_, ?_, rfl⟩
  · intro hlt
    rw [heval, if_pos hlt]
  · intro hge
    rw [heval, if_neg (by omega)]
    by_cases hcov : coreHit acc.cats
    · rw [if_pos hcov]
      cases gen with
      | err => simp
      | malformed text => simp
      | parsed text j =>
        cases hp : parseRecipes ⟨acc.matchedDb, acc.matchedLlm, text⟩ j <;> simp [hp]
    · rw [if_neg hcov]
      simp

/-- A request with only two available ingredients, both dataset hits. -/
def reqTwo : RecipeRequest := ⟨"u", ["tomato", "egg"], [], []⟩

/-- The loop state after resolving `reqTwo` against `df0`. -/
def accTwo : LoopAcc :=
  ⟨["tomato", "egg"], ["tomato", "egg"], [], [.str "vegetables", .str "protein"]⟩

/-- Witness for C3: two valid ingredients trip the minimum-count gate. -/
theorem minimum_count_gate_witness :
    (conflictList lemId reqTwo = [] ∧
      (resolveLoop lemId df0 llmE (normalizedAvailable lemId reqTwo) initAcc).1 = .ok accTwo ∧
      accTwo.valid.length < 3) ∧
    (generate_recipe lemId df0 llmE .err reqTwo).1 = .error .notEnough :=
  ⟨⟨rfl, rfl, by decide⟩,
   (minimum_count_gate lemId df0 llmE .err reqTwo accTwo rfl rfl).1 (by decide)⟩

/-- C4 (amended).  Once the conflict gate passes and the resolution loop
completes without an uncaught exception (a truthy unhashable category
aborts the request with `TypeError` before any gate — see the
counterexample): whenever at least 3 ingredients resolved but the
resolved categories are disjoint from the core set, the request is
rejected with the coverage error; and whenever fewer than 3 resolved,
the result is the minimum-count error — the coverage gate is only
consulted after the minimum-count gate passes. -/
theorem coverage_gate_after_count_gate
    (lem : String → String) (df : Dataset) (llm : String → LLMOutcome)
    (gen : GenOutcome) (req : RecipeRequest) (acc : LoopAcc)
    (hconf : conflictList lem req = [])
    (hres : (resolveLoop lem df llm (normalizedAvailable lem req) initAcc).1 = .ok acc) :
    (3 ≤ acc.valid.length → coreHit acc.cats = false →
      (generate_recipe lem df llm gen req).1 = .error .noCore) ∧
    (acc.valid.length < 3 →
      (generate_recipe lem df llm gen req).1 = .error .notEnough) := by
  have heval := generate_recipe_fst_of_resolved lem df llm gen req acc hconf hres
  constructor
  · intro hge hcovf
    rw [heval, if_neg (by omega), if_neg (by simp [hcovf])]
  · intro hlt
    rw [heval, if_pos hlt]

/-- A dataset of valid non-core ingredients only. -/
def dfNonCore : Dataset :=
  [⟨"salt", "seasoning"⟩, ⟨"water", "beverage"⟩, ⟨"pepper", "seasoning"⟩]

/-- A request whose three ingredients all resolve outside the core set. -/
def reqNonCore : RecipeRequest := ⟨"u", ["salt", "water", "pepper"], [], []⟩

/-- The loop state after resolving `reqNonCore` against `dfNonCore`. -/
def accNonCore : LoopAcc :=
  ⟨["salt", "water", "pepper"], ["salt", "water", "pepper"], [],
   [.str "seasoning", .str "beverage", .str "seasoning"]⟩

/-- A classification service declaring `weird` a valid food with a
JSON-list category, and failing on everything else. -/
def llmWeird : String → LLMOutcome :=
  fun s =>
    if s = "weird" then .reply (.obj [("valid", .str "YES"), ("category", .arr [.str "x"])])
    else .err

/-- C4 counterexample: `salt`, `water`, `pepper` resolve via the dataset
to non-core categories (the count gate would pass, the resolved
categories are disjoint from the core set), but the fourth ingredient's
service-declared JSON-list category makes `set.add` raise `TypeError`,
so the request aborts with that exception and the coverage error is
never produced. -/
theorem unhashable_category_aborts_before_coverage_gate :
    (resolveLoop lemId dfNonCore llmWeird ["salt", "water", "pepper"] initAcc).1 =
      .ok accNonCore ∧
    (3 ≤ accNonCore.valid.length ∧ coreHit accNonCore.cats = false) ∧
    (generate_recipe lemId dfNonCore llmWeird .err
        ⟨"u", ["salt", "water", "pepper", "weird"], [], []⟩).1 =
      .error (.exn .typeError) :=
  ⟨rfl, ⟨by decide, rfl⟩, rfl⟩

/-- Witness for C4: three valid non-core ingredients pass the count gate
and trip the coverage gate. -/
theorem coverage_gate_after_count_gate_witness :
    (conflictList lemId reqNonCore = [] ∧
      (resolveLoop lemId dfNonCore llmE (normalizedAvailable lemId reqNonCore) initAcc).1 =
        .ok accNonCore ∧
      3 ≤ accNonCore.valid.length ∧ coreHit accNonCore.cats = false) ∧
    (generate_recipe lemId dfNonCore llmE .err reqNonCore).1 = .error .noCore :=
  ⟨⟨rfl, rfl, by decide, rfl⟩,
   (coverage_gate_after_count_gate lemId dfNonCore llmE .err reqNonCore accNonCore rfl rfl).1
     (by decide) rfl⟩

/-- A request with three available ingredients, all dataset hits in `df0`. -/
def reqThree : RecipeRequest := ⟨"u", ["tomato", "egg", "rice"], [], []⟩

/-- The loop state after resolving `reqThree` against `df0`. -/
def accThree : LoopAcc :=
  ⟨["tomato", "egg", "rice"], ["tomato", "egg", "rice"], [],
   [.str "vegetables", .str "protein", .str "carbs"]⟩

/-- C5 counterexample: a generation reply whose text `{}` contains no
well-formed structured list at all parses as an empty JSON dict, the
comprehension iterates nothing, and `generate_recipe` succeeds with an
empty batch instead of failing. -/
theorem empty_dict_reply_returns_empty_batch :
    (generate_recipe lemId df0 llmE (.parsed "{}" (.obj [])) reqThree).1 = .ok [] := rfl

/-- When one entry of the iterated reply fails validation, the whole
comprehension fails with the first raised exception. -/
theorem exceptMapM_error_of_mem (f : JsonVal → Except PyExn RecipeResponseWithDebug)
    (xs : List JsonVal) (r : JsonVal) (e : PyExn)
    (hr : r ∈ xs) (he : f r = .error e) :
    ∃ e2, exceptMapM f xs = .error e2 := by
  induction xs with
  | nil => cases hr
  | cons x rest ih =>
    rcases List.mem_cons.mp hr with h1 | h2
    · subst h1
      exact ⟨e, by simp [exceptMapM, he]⟩
    · cases hfx : f x with
      | error e3 => exact ⟨e3, by simp [exceptMapM, hfx]⟩
      | ok y =>
        obtain ⟨e2, hrest⟩ := ih h2
        exact ⟨e2, by simp [exceptMapM, hfx, hrest]⟩

/-- C5 (amended).  Once the gates pass: a generation reply whose text JSON
parsing rejects fails the request with the parse error; a parsed reply on
which recipe validation raises fails the whole request with that
exception, returning no recipes; one entry of a parsed list failing
validation fails the whole comprehension; and an entry lacking the
required `title` field fails validation.  Only the empty-dict and
empty-string replies escape this (they yield an empty successful batch,
see the counterexample); every failing batch returns no partial recipes. -/
theorem synthesis_parse_failure_fails_whole_batch
    (lem : String → String) (df : Dataset) (llm : String → LLMOutcome)
    (req : RecipeRequest) (acc : LoopAcc) (text : String) (j : JsonVal) (e : PyExn)
    (hconf : conflictList lem req = [])
    (hres : (resolveLoop lem df llm (normalizedAvailable lem req) initAcc).1 = .ok acc)
    (hge : 3 ≤ acc.valid.length)
    (hcov : coreHit acc.cats = true) :
    ((generate_recipe lem df llm (.malformed text) req).1 = .error .parseErr) ∧
    (parseRecipes ⟨acc.matchedDb, acc.matchedLlm, text⟩ j = .error e →
      (generate_recipe lem df llm (.parsed text j) req).1 = .error (.exn e)) ∧
    (∀ (dbg : DebugInfo) (xs : List JsonVal) (r : JsonVal) (e2 : PyExn),
      r ∈ xs → parseRecipe dbg r = .error e2 →
      ∃ e3, parseRecipes dbg (.arr xs) = .error e3) ∧
    (∀ (dbg : DebugInfo) (fs : List (String × JsonVal)),
      fs.find? (fun f => f.1 = "title") = none →
      parseRecipe dbg (.obj fs) = .error (.validationError "title")) := by
  refine ⟨?_, ?_, ?_, ?_⟩
  · rw [generate_recipe_fst_of_resolved lem df llm (.malformed text) req acc hconf hres,
        if_neg (by omega), if_pos hcov]
  · intro hp
    rw [generate_recipe_fst_of_resolved lem df llm (.parsed text j) req acc hconf hres,
        if_neg (by omega), if_pos hcov]
    simp [hp]
  · intro dbg xs r e2 hr he2
    exact exceptMapM_error_of_mem (parseRecipe dbg) xs r e2 hr he2
  · intro dbg fs hf
    simp only [parseRecipe, getStrField, hf]
    rfl

/-- Witness for C5 (amended): an unparseable generation reply fails the
`reqThree` request with the parse error. -/
theorem synthesis_parse_failure_fails_whole_batch_witness :
    (conflictList lemId reqThree = [] ∧
      (resolveLoop lemId df0 llmE (normalizedAvailable lemId reqThree) initAcc).1 = .ok accThree ∧
      3 ≤ accThree.valid.length ∧ coreHit accThree.cats = true) ∧
    (generate_recipe lemId df0 llmE (.malformed "Sorry, no JSON today") reqThree).1 =
      .error .parseErr :=
  ⟨⟨rfl, rfl, by decide, rfl⟩,
   (synthesis_parse_failure_fails_whole_batch lemId df0 llmE reqThree accThree
     "Sorry, no JSON today" (.num 5) .typeError rfl rfl (by decide) rfl).1⟩

/-- A request in which two raw tokens normalize to the same canonical
ingredient. -/
def reqDup : RecipeRequest := ⟨"u", ["tomato", "Tomato", "egg"], [], []⟩

/-- C6 counterexample: both spellings of `tomato` resolve, the valid list
passed to synthesis holds the canonical ingredient `tomato` twice, and the
generation prompt is built from that duplicated list — the pipeline does
not de-duplicate. -/
theorem duplicate_canonical_ingredient_passed_twice_to_synthesis :
    (resolveLoop lemId df0 llmE (normalizedAvailable lemId reqDup) initAcc).1 =
      .ok ⟨["tomato", "tomato", "egg"], ["tomato", "tomato", "egg"], [],
           [.str "vegetables", .str "vegetables", .str "protein"]⟩ ∧
    (["tomato", "tomato", "egg"] : List String).count "tomato" = 2 ∧
    (generate_recipe lemId df0 llmE (.parsed "[]" (.arr [])) reqDup).2 =
      [.lookup "tomato", .lookup "tomato", .lookup "egg",
       .generate (buildPrompt ["tomato", "tomato", "egg"] [] [])] :=
  ⟨rfl, rfl, rfl⟩

/-- The canonical name recorded when a raw token resolves as valid, and
nothing when it does not. -/
def resolvedName (lem : String → String) (df : Dataset) (llm : String → LLMOutcome)
    (i : String) : Option String :=
  match (is_valid_ingredient lem df llm i).1 with
  | .ok (some r) => some r.ingredient
  | _ => none

/-- C6 (amended).  The valid-ingredient list handed to synthesis contains
exactly one entry per raw input token that resolves as valid, in input
order, with no de-duplication: raw tokens normalizing to the same
canonical ingredient each contribute their own entry. -/
theorem valid_list_keeps_one_entry_per_resolving_token
    (lem : String → String) (df : Dataset) (llm : String → LLMOutcome) :
    ∀ (ings : List String) (acc res : LoopAcc),
      (resolveLoop lem df llm ings acc).1 = .ok res →
      res.valid = acc.valid ++ ings.filterMap (resolvedName lem df llm) := by
  intro ings
  induction ings with
  | nil =>
    intro acc res h
    simp only [resolveLoop] at h
    cases h
    simp
  | cons ing rest ih =>
    intro acc res h
    rw [resolveLoop_fst_cons] at h
    cases hiv : (is_valid_ingredient lem df llm ing).1 with
    | error e =>
      rw [hiv] at h
      cases h
    | ok o =>
      cases o with
      | none =>
        rw [hiv] at h
        rw [ih acc res h]
        simp [resolvedName, hiv]
      | some r0 =>
        rw [hiv] at h
        dsimp only at h
        cases hup : updateAcc df acc r0 with
        | error e =>
          rw [hup] at h
          cases h
        | ok acc2 =>
          rw [hup] at h
          rw [ih acc2 res h, (updateAcc_ok_fields df acc r0 acc2 hup).1]
          simp [resolvedName, hiv]

/-- Witness for C6 (amended) on the duplicated request. -/
theorem valid_list_keeps_one_entry_per_resolving_token_witness :
    ((resolveLoop lemId df0 llmE ["tomato", "tomato", "egg"] initAcc).1 =
      .ok ⟨["tomato", "tomato", "egg"], ["tomato", "tomato", "egg"], [],
           [.str "vegetables", .str "vegetables", .str "protein"]⟩) ∧
    (LoopAcc.mk ["tomato", "tomato", "egg"] ["tomato", "tomato", "egg"] []
      [.str "vegetables", .str "vegetables", .str "protein"]).valid =
      initAcc.valid ++
        (["tomato", "tomato", "egg"] : List String).filterMap (resolvedName lemId df0 llmE) :=
  ⟨rfl,
   valid_list_keeps_one_entry_per_resolving_token lemId df0 llmE
     ["tomato", "tomato", "egg"] initAcc
     ⟨["tomato", "tomato", "egg"], ["tomato", "tomato", "egg"], [],
      [.str "vegetables", .str "vegetables", .str "protein"]⟩ rfl⟩

/-- C9 counterexample: the external service declares `milk` a valid
ingredient of category `dairy`; resolution attaches `dairy` verbatim,
although `dairy` is neither in the core enumeration nor the unspecified
state — the code never restricts the declared category. -/
theorem llm_declared_category_attached_verbatim :
    (is_valid_ingredient lemId [] llmDairy "milk").1 =
      .ok (some ⟨"milk", some (.str "dairy")⟩) ∧
    CORE_CATEGORIES.contains "dairy" = false :=
  ⟨rfl, rfl⟩

/-- Characterization of a valid result of the external-service fallback:
it can only arise from a parsed reply, and carries the reply's declared
category verbatim (with `"None"` mapped to no category). -/
theorem llmValidate_ok_some (llm : String → LLMOutcome) (n : String)
    (r : ResolvedIngredient)
    (h : (llmValidate llm n).1 = .ok (some r)) :
    ∃ j c, llm n = .reply j ∧ jsonGet j "category" = .ok c ∧
      r = ⟨n, if isNoneStr c then none else some c⟩ := by
  cases hllm : llm n with
  | err =>
    rw [llmValidate, call_llm_for_ingredient, hllm] at h
    simp at h
  | reply j =>
    rw [llmValidate, call_llm_for_ingredient, hllm] at h
    dsimp only at h
    by_cases htr : jsonTruthy j
    · rw [if_pos htr] at h
      cases hv : jsonGet j "valid" with
      | error e =>
        rw [hv] at h
        simp at h
      | ok v =>
        rw [hv] at h
        dsimp only at h
        cases hu : jsonUpper v with
        | error e =>
          rw [hu] at h
          simp at h
        | ok u =>
          rw [hu] at h
          dsimp only at h
          by_cases hy : u = "YES"
          · rw [if_pos hy] at h
            cases hc : jsonGet j "category" with
            | error e =>
              rw [hc] at h
              simp at h
            | ok c =>
              rw [hc] at h
              dsimp only at h
              cases h
              exact ⟨j, c, rfl, hc, rfl⟩
          · rw [if_neg hy] at h
            simp at h
    · rw [if_neg htr] at h
      simp at h

/-- C9 (amended).  Every ingredient resolved as valid carries its
canonical (normalized) form and at most one category, drawn verbatim from
exactly one source: the dataset's non-empty category cell, or the
category field the external service declared (its `"None"` mapped to the
unspecified state).  The code does not constrain that value to the core
enumeration — see the counterexample. -/
theorem resolved_category_single_source
    (lem : String → String) (df : Dataset) (llm : String → LLMOutcome)
    (ing : String) (r : ResolvedIngredient)
    (h : (is_valid_ingredient lem df llm ing).1 = .ok (some r)) :
    r.ingredient = normalize_ingredient lem ing ∧
    ((∃ c, get_ingredient_category df (normalize_ingredient lem ing) = some c ∧ c ≠ "" ∧
        r.category = some (.str c)) ∨
     (∃ j c, llm (normalize_ingredient lem ing) = .reply j ∧
        jsonGet j "category" = .ok c ∧
        r.category = if isNoneStr c then none else some c)) := by
  simp only [is_valid_ingredient] at h
  by_cases htr : optStrTruthy (get_ingredient_category df (normalize_ingredient lem ing))
  · rw [if_pos htr] at h
    simp only at h
    cases h
    cases hg : get_ingredient_category df (normalize_ingredient lem ing) with
    | none =>
      rw [hg] at htr
      simp [optStrTruthy] at htr
    | some c =>
      rw [hg] at htr
      refine ⟨rfl, Or.inl ⟨c, rfl, ?_, ?_⟩⟩
      · simpa [optStrTruthy] using htr
      · simp
  · rw [if_neg htr] at h
    simp only at h
    obtain ⟨j, c, hllm, hc, hr⟩ := llmValidate_ok_some llm (normalize_ingredient lem ing) r h
    subst hr
    exact ⟨rfl, Or.inr ⟨j, c, hllm, hc, rfl⟩⟩

/-- Witness for C9 (amended) on the external-service path for `milk`. -/
theorem resolved_category_single_source_witness :
    ((is_valid_ingredient lemId [] llmDairy "milk").1 =
      .ok (some ⟨"milk", some (.str "dairy")⟩)) ∧
    ((ResolvedIngredient.mk "milk" (some (.str "dairy"))).ingredient =
        normalize_ingredient lemId "milk" ∧
      ((∃ c, get_ingredient_category [] (normalize_ingredient lemId "milk") = some c ∧
          c ≠ "" ∧ (ResolvedIngredient.mk "milk" (some (.str "dairy"))).category =
            some (.str c)) ∨
       (∃ j c, llmDairy (normalize_ingredient lemId "milk") = .reply j ∧
          jsonGet j "category" = .ok c ∧
          (ResolvedIngredient.mk "milk" (some (.str "dairy"))).category =
            if isNoneStr c then none else some c))) :=
  ⟨rfl, resolved_category_single_source lemId [] llmDairy "milk"
    ⟨"milk", some (.str "dairy")⟩ rfl⟩

/-- The provenance bookkeeping invariant of the resolution loop: an
ingredient is listed as database-matched exactly when it is valid and its
canonical form occurs in the dataset's Ingredient column, and as
LLM-matched exactly when it is valid and does not occur there. -/
def ProvenanceInv (df : Dataset) (acc : LoopAcc) : Prop :=
  ∀ x, (x ∈ acc.matchedDb ↔ (x ∈ acc.valid ∧ dfHasIngredient df x = true)) ∧
       (x ∈ acc.matchedLlm ↔ (x ∈ acc.valid ∧ dfHasIngredient df x = false))

/-- One successful valid-resolution update preserves the provenance
invariant. -/
theorem updateAcc_preserves_inv (df : Dataset) (acc : LoopAcc) (r : ResolvedIngredient)
    (acc2 : LoopAcc) (hupd : updateAcc df acc r = .ok acc2)
    (h : ProvenanceInv df acc) : ProvenanceInv df acc2 := by
  obtain ⟨hv, hdb2, hlm2⟩ := updateAcc_ok_fields df acc r acc2 hupd
  intro x
  obtain ⟨hdb, hlm⟩ := h x
  rw [hv, hdb2, hlm2]
  by_cases hdf : dfHasIngredient df r.ingredient
  · simp only [hdf, if_true, List.mem_append, List.mem_singleton]
    constructor
    · constructor
      · rintro (hx | rfl)
        · exact ⟨Or.inl (hdb.mp hx).1, (hdb.mp hx).2⟩
        · exact ⟨Or.inr rfl, hdf⟩
      · rintro ⟨hx | rfl, hd⟩
        · exact Or.inl (hdb.mpr ⟨hx, hd⟩)
        · exact Or.inr rfl
    · constructor
      · intro hx
        exact ⟨Or.inl (hlm.mp hx).1, (hlm.mp hx).2⟩
      · rintro ⟨hx | rfl, hd⟩
        · exact hlm.mpr ⟨hx, hd⟩
        · rw [hdf] at hd
          cases hd
  · have hdf2 : dfHasIngredient df r.ingredient = false := by
      simpa using hdf
    simp only [hdf2, Bool.false_eq_true, if_false, List.mem_append,
      List.mem_singleton]
    constructor
    · constructor
      · intro hx
        exact ⟨Or.inl (hdb.mp hx).1, (hdb.mp hx).2⟩
      · rintro ⟨hx | rfl, hd⟩
        · exact hdb.mpr ⟨hx, hd⟩
        · rw [hdf2] at hd
          cases hd
    · constructor
      · rintro (hx | rfl)
        · exact ⟨Or.inl (hlm.mp hx).1, (hlm.mp hx).2⟩
        · exact ⟨Or.inr rfl, hdf2⟩
      · rintro ⟨hx | rfl, hd⟩
        · exact Or.inl (hlm.mpr ⟨hx, hd⟩)
        · exact Or.inr rfl

/-- The resolution loop preserves the provenance invariant. -/
theorem resolveLoop_preserves_inv (lem : String → String) (df : Dataset)
    (llm : String → LLMOutcome) :
    ∀ (ings : List String) (acc res : LoopAcc),
      (resolveLoop lem df llm ings acc).1 = .ok res →
      ProvenanceInv df acc → ProvenanceInv df res := by
  intro ings
  induction ings with
  | nil =>
    intro acc res h hinv
    simp only [resolveLoop] at h
    cases h
    exact hinv
  | cons ing rest ih =>
    intro acc res h hinv
    rw [resolveLoop_fst_cons] at h
    cases hiv : (is_valid_ingredient lem df llm ing).1 with
    | error e =>
      rw [hiv] at h
      cases h
    | ok o =>
      cases o with
      | none =>
        rw [hiv] at h
        exact ih acc res h hinv
      | some r0 =>
        rw [hiv] at h
        dsimp only at h
        cases hup : updateAcc df acc r0 with
        | error e =>
          rw [hup] at h
          cases h
        | ok acc2 =>
          rw [hup] at h
          exact ih acc2 res h (updateAcc_preserves_inv df acc r0 acc2 hup hinv)

/-- C10.  For every run of the resolution loop, a valid ingredient is
reported in `matched_with_database` exactly when its canonical form
occurs in the dataset's Ingredient column and in `matched_via_llm`
otherwise — provenance is decided by re-checking dataset membership, not
by which path validated the ingredient.  In particular (second conjunct),
`water` sits in the table with an empty category cell, is validated by
the external service (a classify event is traced, category unspecified),
yet is recorded as database-matched. -/
theorem provenance_decided_by_dataset_membership :
    (∀ (lem : String → String) (df : Dataset) (llm : String → LLMOutcome)
       (ings : List String) (res : LoopAcc),
      (resolveLoop lem df llm ings initAcc).1 = .ok res →
      ∀ x, (x ∈ res.matchedDb ↔ (x ∈ res.valid ∧ dfHasIngredient df x = true)) ∧
           (x ∈ res.matchedLlm ↔ (x ∈ res.valid ∧ dfHasIngredient df x = false))) ∧
    (is_valid_ingredient lemId dfWater llmYesNone "water" =
        (.ok (some ⟨"water", none⟩), [.lookup "water", .classify "water"]) ∧
      resolveLoop lemId dfWater llmYesNone ["water"] initAcc =
        (.ok ⟨["water"], ["water"], [], []⟩, [.lookup "water", .classify "water"])) := by
  constructor
  · intro lem df llm ings res h
    refine resolveLoop_preserves_inv lem df llm ings initAcc res h ?_
    intro x
    simp [initAcc]
  · exact ⟨rfl, rfl⟩

/-- Witness for C10, instantiating the loop invariant on the `water` run. -/
theorem provenance_decided_by_dataset_membership_witness :
    ("water" ∈ (LoopAcc.mk ["water"] ["water"] [] []).matchedDb ↔
      ("water" ∈ (LoopAcc.mk ["water"] ["water"] [] []).valid ∧
        dfHasIngredient dfWater "water" = true)) ∧
    ("water" ∈ (LoopAcc.mk ["water"] ["water"] [] []).matchedLlm ↔
      ("water" ∈ (LoopAcc.mk ["water"] ["water"] [] []).valid ∧
        dfHasIngredient dfWater "water" = false)) :=
  provenance_decided_by_dataset_membership.1 lemId dfWater llmYesNone ["water"]
    ⟨["water"], ["water"], [], []⟩ rfl "water"

end RecipeService
